import Mathlib

/-!
Verification development for the price-predictor ingestion/sync pipeline
(backend scrapers, sync service, municipality normalization, coordinate
resolution and deal scoring).

Each Python function under scrutiny is shallow-embedded as an executable
Lean definition: machine numbers are exact rationals or integers, Python
`None` is `Option`, Python exceptions are `Except`, Python dictionaries are
association lists where key presence matters, and `datetime` values are
integer timestamps.
-/

namespace DealScore

/-- Embeds `deal_score` from `backend/app/main.py` (lines 99–110).
`price_difference` is precomputed as `price_numeric - predicted_price`
(line 96); the float literals `-0.20` and `-0.10` are the exact rationals
`-1/5` and `-1/10`, and float comparison at these operands agrees with the
rational comparison. -/
def deal_score (price_numeric predicted_price : ℚ) : ℤ :=
  if predicted_price = 0 then 0
  else
    let price_difference := price_numeric - predicted_price
    let diff_ratio := price_difference / predicted_price
    if diff_ratio < -(20/100) then 95
    else if diff_ratio < -(10/100) then 85
    else if diff_ratio < 0 then 70
    else 40

/-- Claim C2 counterexample: the code guards only `predicted_price == 0`, not
`predicted_price <= 0`: at `price = 80000`, `predicted = -100000` the
predicted price is not positive, yet the score is 95, not 0. -/
theorem deal_score_nonpositive_cex :
    deal_score 80000 (-100000) = 95 ∧ deal_score 80000 (-100000) ≠ 0 ∧ ((-100000 : ℚ) < 0) := by
  refine ⟨by norm_num [deal_score], by norm_num [deal_score], by norm_num⟩

/-- Claim C2 (amended): the score is 0 when the predicted price is exactly 0
(not: whenever it is non-positive); otherwise with `r = (p - q)/q` the score
is 95 for `r < -0.20`, 85 for `-0.20 ≤ r < -0.10`, 70 for `-0.10 ≤ r < 0` and
40 for `r ≥ 0`; in particular `p = 80000, q = 100000` (`r = -0.20` exactly)
scores 85, not 95, because every boundary test is strict `<`. -/
theorem deal_score_buckets (p q : ℚ) :
    (q = 0 → deal_score p q = 0) ∧
    (q ≠ 0 → (p - q) / q < -(1/5) → deal_score p q = 95) ∧
    (q ≠ 0 → -(1/5) ≤ (p - q) / q → (p - q) / q < -(1/10) → deal_score p q = 85) ∧
    (q ≠ 0 → -(1/10) ≤ (p - q) / q → (p - q) / q < 0 → deal_score p q = 70) ∧
    (q ≠ 0 → 0 ≤ (p - q) / q → deal_score p q = 40) ∧
    deal_score 80000 100000 = 85 := by
  refine ⟨fun h => by simp [deal_score, h], fun h hr => ?_, fun h h1 h2 => ?_,
    fun h h1 h2 => ?_, fun h h1 => ?_, by norm_num [deal_score]⟩ <;>
    simp only [deal_score, if_neg h]
  · rw [if_pos (by linarith)]
  · rw [if_neg (by push_neg; linarith), if_pos (by linarith)]
  · rw [if_neg (by push_neg; linarith), if_neg (by push_neg; linarith), if_pos (by linarith)]
  · rw [if_neg (by push_neg; linarith), if_neg (by push_neg; linarith),
      if_neg (by push_neg; linarith)]

/-- Concrete evaluations of each bucket through `deal_score_buckets`. -/
theorem deal_score_buckets_check :
    deal_score 70000 100000 = 95 ∧ deal_score 85000 100000 = 85 ∧
    deal_score 95000 100000 = 70 ∧ deal_score 100000 100000 = 40 ∧ deal_score 5 0 = 0 :=
  ⟨(deal_score_buckets 70000 100000).2.1 (by norm_num) (by norm_num),
   (deal_score_buckets 85000 100000).2.2.1 (by norm_num) (by norm_num) (by norm_num),
   (deal_score_buckets 95000 100000).2.2.2.1 (by norm_num) (by norm_num) (by norm_num),
   (deal_score_buckets 100000 100000).2.2.2.2.1 (by norm_num) (by norm_num),
   (deal_score_buckets 5 0).1 rfl⟩

end DealScore

namespace SyncService

/-- `price_numeric` values: Python `None` or a number. -/
abbrev Price := Option ℤ

/-- Python truthiness of a price value: `None` and `0` are falsy. -/
def truthyPrice : Price → Bool
  | none => false
  | some p => p != 0

inductive FieldVal
  | vstr : Option String → FieldVal
  | vint : Option ℤ → FieldVal
  | vrat : Option ℚ → FieldVal
  | vbool : Bool → FieldVal
  | vlist : List String → FieldVal
  | vjson : List (String × String) → FieldVal
  deriving DecidableEq, Repr

abbrev PyDict := List (String × FieldVal)

def dictContains (d : PyDict) (k : String) : Bool := d.any (·.1 == k)

def dictLookup (d : PyDict) (k : String) : Option FieldVal := (d.find? (·.1 == k)).map (·.2)

def dictSet (d : PyDict) (k : String) (v : FieldVal) : PyDict :=
  if dictContains d k then d.map (fun p => if p.1 == k then (k, v) else p) else d ++ [(k, v)]

def dictPop (d : PyDict) (k : String) : PyDict := d.filter (fun p => p.1 != k)

structure Scraped where
  external_id : Option String
  url : Option String
  title : Option String
  price_numeric : Price
  municipality : Option String
  rooms : Option ℚ
  square_m2 : Option ℚ
  thumbnail_url : Option String
  description : Option String
  posted_date : Option String
  latitude : Option ℚ
  longitude : Option ℚ
  image_urls : List String
  extras : List (String × String)
  deriving DecidableEq, Repr

structure Row where
  id : ℕ
  external_id : Option String
  url : Option String
  title : Option String
  price_numeric : Price
  municipality : Option String
  last_updated : Option ℤ
  scraped_at : Option ℤ
  is_active : Bool
  deriving DecidableEq, Repr

def FIELD_MAPPING : List (String × String) :=
  [("adresa", "address"), ("latitude", "latitude"), ("longitude", "longitude"),
   ("broj_kupatila", "bathrooms"), ("primarna_orjentacija", "orientation"),
   ("vrsta_poda", "floor_type"), ("godina_izgradnje", "year_built"),
   ("datum_objave", "publication_date"),
   ("garaža", "has_garage"), ("garaza", "has_garage"), ("internet", "has_internet"),
   ("kablovska_tv", "has_cable_tv"), ("lift", "has_elevator"), ("balkon", "has_balcony"),
   ("podrum_tavan", "has_basement"), ("podrum", "has_basement"), ("tavan", "has_basement"),
   ("parking", "has_parking"), ("parking_mesto", "has_parking")]

def BOOLEAN_INDICATORS : List String := ["da", "yes", "true", "✓", "✔", "ima"]

def parse_boolean (v : String) : Bool := BOOLEAN_INDICATORS.contains (v.toLower.trim)

def firstDigitRun : List Char → Option ℕ
  | [] => none
  | c :: cs =>
    if c.isDigit then
      some (((c :: cs).takeWhile Char.isDigit).foldl (fun a d => a * 10 + (d.toNat - 48)) 0)
    else firstDigitRun cs

def parse_integer (v : String) : Option ℤ := (firstDigitRun v.toList).map (fun n => (n : ℤ))

def allDigits (s : String) : Bool := s ≠ "" && s.toList.all Char.isDigit

def toNatDigits (s : String) : ℕ := s.toList.foldl (fun a d => a * 10 + (d.toNat - 48)) 0

def pad2 (n : ℕ) : String := if n < 10 then "0" ++ toString n else toString n

/-- `_parse_date`: recognizes `DD.MM.YYYY`, `YYYY-MM-DD`, `DD/MM/YYYY` and
renders `YYYY-MM-DD`; `strptime`'s exact calendar validation is abstracted to
range checks on day and month. -/
def parse_date (v : String) : Option String :=
  let s := v.trim
  let tryFmt := fun (sep : Char) (dayFirst : Bool) =>
    match s.split (· == sep) with
    | [a, b, c] =>
      if allDigits a && allDigits b && allDigits c then
        let (d, m, y) := if dayFirst then (toNatDigits a, toNatDigits b, toNatDigits c)
                         else (toNatDigits c, toNatDigits b, toNatDigits a)
        if 1 ≤ d && d ≤ 31 && 1 ≤ m && m ≤ 12 then
          some (toString y ++ "-" ++ pad2 m ++ "-" ++ pad2 d)
        else none
      else none
    | _ => none
  (tryFmt '.' true).orElse (fun _ => (tryFmt '-' false).orElse (fun _ => tryFmt '/' true))

/-- `_transform_listing_data`: builds the dict sent to the database.
`scraped_at`/`last_updated` are `datetime.now().isoformat()`, modelled as the
integer timestamp `now`. -/
def transform_listing_data (l : Scraped) (now : ℤ) : PyDict :=
  let data : PyDict :=
    [("external_id", .vstr l.external_id), ("url", .vstr l.url), ("title", .vstr l.title),
     ("price_numeric", .vint l.price_numeric), ("municipality", .vstr l.municipality),
     ("rooms", .vrat l.rooms), ("square_m2", .vrat l.square_m2),
     ("thumbnail_url", .vstr l.thumbnail_url), ("description", .vstr l.description),
     ("posted_date", .vstr l.posted_date), ("scraped_at", .vint (some now)),
     ("last_updated", .vint (some now)), ("is_active", .vbool true)]
  let data := match l.latitude with
    | some lat => if lat ≠ 0 then data ++ [("latitude", .vrat (some lat))] else data
    | none => data
  let data := match l.longitude with
    | some lng => if lng ≠ 0 then data ++ [("longitude", .vrat (some lng))] else data
    | none => data
  let data := if l.image_urls ≠ [] then data ++ [("image_urls", .vlist l.image_urls)] else data
  let step := fun ((data, ejson) : PyDict × List (String × String)) ((k, v) : String × String) =>
    if dictContains data k || !k.startsWith "extra_" then (data, ejson)
    else
      let field_name := k.drop 6
      match FIELD_MAPPING.lookup field_name with
      | some db_column =>
        if db_column.startsWith "has_" then (dictSet data db_column (.vbool (parse_boolean v)), ejson)
        else if db_column == "bathrooms" then (dictSet data db_column (.vint (parse_integer v)), ejson)
        else if db_column == "publication_date" then (dictSet data db_column (.vstr (parse_date v)), ejson)
        else (dictSet data db_column (.vstr (if v ≠ "" then some v else none)), ejson)
      | none => (data, ejson ++ [(field_name, v)])
  let (data, ejson) := l.extras.foldl step (data, [])
  data ++ [("extra_fields", .vjson ejson)]

/-- The dict `_update_listings` sends to `.update()`: the transform minus the
popped keys, with `last_updated` refreshed. -/
def update_payload (l : Scraped) (now : ℤ) : PyDict :=
  let ud := transform_listing_data l now
  let ud := dictPop ud "external_id"
  let ud := dictPop ud "source"
  let ud := dictPop ud "is_active"
  let ud := dictPop ud "scraped_at"
  dictSet ud "last_updated" (.vint (some now))

/-- Effect of a per-row `.update(update_data)` on a stored row: each column
present in the payload is overwritten, every other column keeps its value. -/
def apply_update (r : Row) (d : PyDict) : Row :=
  { r with
    external_id := match dictLookup d "external_id" with | some (.vstr v) => v | _ => r.external_id
    url := match dictLookup d "url" with | some (.vstr v) => v | _ => r.url
    title := match dictLookup d "title" with | some (.vstr v) => v | _ => r.title
    price_numeric := match dictLookup d "price_numeric" with | some (.vint v) => v | _ => r.price_numeric
    municipality := match dictLookup d "municipality" with | some (.vstr v) => v | _ => r.municipality
    last_updated := match dictLookup d "last_updated" with | some (.vint v) => v | _ => r.last_updated
    scraped_at := match dictLookup d "scraped_at" with | some (.vint v) => v | _ => r.scraped_at
    is_active := match dictLookup d "is_active" with | some (.vbool b) => b | _ => r.is_active }

/-- `_needs_update`: price changed, or title changed, or the stored
`last_updated` parses and is more than 24h (86400s) before `now`.
An absent or unparseable `last_updated` is modelled as `none`. -/
def needs_update (l : Scraped) (e : Row) (now : ℤ) : Bool :=
  (l.price_numeric != e.price_numeric) || (l.title != e.title) ||
    (match e.last_updated with
     | some t => now - t > 86400
     | none => false)

inductive Classification
  | isNew
  | changed (r : Row)
  | unchanged (r : Row)
  | skipped
  deriving DecidableEq, Repr

/-- Per-listing branch of `_sync_source`'s partition loop: listings with a
falsy `external_id` are skipped; a listing whose id is in `existing_map` is
an update candidate iff `_needs_update`. -/
def classify (l : Scraped) (existing : List Row) (now : ℤ) : Classification :=
  match l.external_id with
  | none => .skipped
  | some eid =>
    if eid = "" then .skipped
    else match existing.find? (fun r => r.external_id == some eid) with
      | some r => if needs_update l r now then .changed r else .unchanged r
      | none => .isNew

/-- `_sync_source`'s partition into `new_listings` and `updated_listings`. -/
def partition_source : List Scraped → List Row → ℤ → List Scraped × List (Row × Scraped)
  | [], _, _ => ([], [])
  | l :: ls, ex, now =>
    let rest := partition_source ls ex now
    match classify l ex now with
    | .isNew => (l :: rest.1, rest.2)
    | .changed r => (rest.1, (r, l) :: rest.2)
    | _ => rest

structure HistoryEntry where
  listing_id : ℕ
  old_price : Price
  new_price : Price
  changed_at : ℤ
  deriving DecidableEq, Repr

/-- `_update_listings` body for one listing: re-fetch the stored price, write
the payload, and append a `price_history` row only when
`old_price and new_price and old_price != new_price`. -/
def process_update (r : Row) (l : Scraped) (now : ℤ) : Row × List HistoryEntry :=
  let old_price := r.price_numeric
  let r' := apply_update r (update_payload l now)
  let new_price := l.price_numeric
  if truthyPrice old_price && truthyPrice new_price && (old_price != new_price)
  then (r', [⟨r.id, old_price, new_price, now⟩])
  else (r', [])

def update_listings : List (Row × Scraped) → ℤ → List Row × List HistoryEntry
  | [], _ => ([], [])
  | (r, l) :: rest, now =>
    let (r', es) := process_update r l now
    let (rs, ess) := update_listings rest now
    (r' :: rs, es ++ ess)

/-- `price_history` rows appended by one `_sync_source` run. -/
def sync_entries (scraped : List Scraped) (ex : List Row) (now : ℤ) : List HistoryEntry :=
  (update_listings (partition_source scraped ex now).2 now).2

/-- `.eq('is_active', True).lt('scraped_at', cutoff)` row filter of
`_mark_expired_listings`. -/
def is_expired (cutoff : ℤ) (r : Row) : Bool :=
  r.is_active && (match r.scraped_at with | some t => t < cutoff | none => false)

def expire_row (cutoff : ℤ) (r : Row) : Row :=
  if is_expired cutoff r then { r with is_active := false } else r

/-- `_mark_expired_listings`: flips matching rows to inactive, returns the
new table and the count of rows the update touched. -/
def mark_expired_listings (rows : List Row) (now : ℤ) (days : ℤ) : List Row × ℕ :=
  let cutoff := now - days * 86400
  (rows.map (expire_row cutoff), (rows.filter (is_expired cutoff)).length)

/-- The live pipeline's two write operations on an existing row. -/
inductive LiveOp
  | update (l : Scraped) (now : ℤ)
  | expire (now : ℤ) (days : ℤ)

def apply_live_op (r : Row) : LiveOp → Row
  | .update l now => apply_update r (update_payload l now)
  | .expire now days => expire_row (now - days * 86400) r

-- sanity examples
def exRow : Row where
  id := 1
  external_id := some "olx_1"
  url := some "u"
  title := some "Stan"
  price_numeric := none
  municipality := none
  last_updated := some 0
  scraped_at := some 0
  is_active := true

def exL : Scraped where
  external_id := some "olx_1"
  url := some "u"
  title := some "Stan"
  price_numeric := some 100000
  municipality := none
  rooms := none
  square_m2 := none
  thumbnail_url := none
  description := none
  posted_date := none
  latitude := none
  longitude := none
  image_urls := []
  extras := []


example : needs_update exL exRow 1000 = true := rfl
example : (process_update exRow exL 1000).2 = [] := rfl

end SyncService

namespace SyncService

-- dictionary step lemmas
theorem dictLookup_cons (p : String × FieldVal) (d : PyDict) (k : String) :
    dictLookup (p :: d) k = if p.1 = k then some p.2 else dictLookup d k := by
  by_cases h : p.1 = k <;> simp [dictLookup, List.find?_cons, h]

theorem dictPop_cons (p : String × FieldVal) (d : PyDict) (k : String) :
    dictPop (p :: d) k = if p.1 = k then dictPop d k else p :: dictPop d k := by
  by_cases h : p.1 = k <;> simp [dictPop, List.filter_cons, h]

theorem dictLookup_pop_self (d : PyDict) (k : String) : dictLookup (dictPop d k) k = none := by
  induction d with
  | nil => rfl
  | cons p d ih =>
    rw [dictPop_cons]
    by_cases h : p.1 = k
    · rw [if_pos h]; exact ih
    · rw [if_neg h, dictLookup_cons, if_neg h]; exact ih

theorem dictLookup_pop_ne (d : PyDict) (k k' : String) (h : k' ≠ k) :
    dictLookup (dictPop d k) k' = dictLookup d k' := by
  induction d with
  | nil => rfl
  | cons p d ih =>
    rw [dictPop_cons]
    by_cases hp : p.1 = k
    · have hp' : p.1 ≠ k' := by rw [hp]; exact fun hh => h hh.symm
      rw [if_pos hp, dictLookup_cons, if_neg hp']; exact ih
    · rw [if_neg hp, dictLookup_cons, dictLookup_cons]
      by_cases hp' : p.1 = k'
      · rw [if_pos hp', if_pos hp']
      · rw [if_neg hp', if_neg hp']; exact ih

theorem dictLookup_map_set (d : PyDict) (k k' : String) (v : FieldVal) (h : k' ≠ k) :
    dictLookup (d.map (fun p => if p.1 == k then (k, v) else p)) k' = dictLookup d k' := by
  induction d with
  | nil => rfl
  | cons p d ih =>
    rw [List.map_cons]
    by_cases hp : p.1 = k
    · rw [show (if (p.1 == k) = true then (k, v) else p) = (k, v) from by simp [hp],
        dictLookup_cons, dictLookup_cons,
        if_neg (show ¬ (k, v).1 = k' from fun hh => h hh.symm),
        if_neg (show ¬ p.1 = k' from by rw [hp]; exact fun hh => h hh.symm)]
      exact ih
    · rw [show (if (p.1 == k) = true then (k, v) else p) = p from by simp [hp],
        dictLookup_cons, dictLookup_cons]
      by_cases hp' : p.1 = k'
      · rw [if_pos hp', if_pos hp']
      · rw [if_neg hp', if_neg hp']; exact ih

theorem dictLookup_append_single_ne (d : PyDict) (k k' : String) (v : FieldVal) (h : k' ≠ k) :
    dictLookup (d ++ [(k, v)]) k' = dictLookup d k' := by
  induction d with
  | nil =>
    rw [List.nil_append, dictLookup_cons, if_neg (show ¬ (k, v).1 = k' from fun hh => h hh.symm)]
  | cons p d ih =>
    rw [List.cons_append, dictLookup_cons, dictLookup_cons]
    by_cases hp' : p.1 = k'
    · rw [if_pos hp', if_pos hp']
    · rw [if_neg hp', if_neg hp']; exact ih

theorem dictLookup_set_ne (d : PyDict) (k k' : String) (v : FieldVal) (h : k' ≠ k) :
    dictLookup (dictSet d k v) k' = dictLookup d k' := by
  unfold dictSet
  split
  · exact dictLookup_map_set d k k' v h
  · exact dictLookup_append_single_ne d k k' v h

theorem update_payload_no_is_active (l : Scraped) (now : ℤ) :
    dictLookup (update_payload l now) "is_active" = none := by
  unfold update_payload
  rw [dictLookup_set_ne _ _ _ _ (by decide), dictLookup_pop_ne _ _ _ (by decide),
    dictLookup_pop_self]

theorem update_payload_no_external_id (l : Scraped) (now : ℤ) :
    dictLookup (update_payload l now) "external_id" = none := by
  unfold update_payload
  rw [dictLookup_set_ne _ _ _ _ (by decide), dictLookup_pop_ne _ _ _ (by decide),
    dictLookup_pop_ne _ _ _ (by decide), dictLookup_pop_ne _ _ _ (by decide),
    dictLookup_pop_self]

theorem update_payload_no_scraped_at (l : Scraped) (now : ℤ) :
    dictLookup (update_payload l now) "scraped_at" = none := by
  unfold update_payload
  rw [dictLookup_set_ne _ _ _ _ (by decide), dictLookup_pop_self]

theorem apply_update_frame (r : Row) (l : Scraped) (now : ℤ) :
    (apply_update r (update_payload l now)).is_active = r.is_active ∧
    (apply_update r (update_payload l now)).external_id = r.external_id ∧
    (apply_update r (update_payload l now)).scraped_at = r.scraped_at := by
  unfold apply_update
  rw [update_payload_no_is_active, update_payload_no_external_id, update_payload_no_scraped_at]
  exact ⟨rfl, rfl, rfl⟩

theorem expire_row_of_not_expired (c : ℤ) (r : Row) (hb : is_expired c r = false) :
    expire_row c r = r := by
  unfold expire_row
  rw [hb]
  simp

theorem expire_row_of_expired (c : ℤ) (r : Row) (hb : is_expired c r = true) :
    expire_row c r = { r with is_active := false } := by
  unfold expire_row
  rw [hb]
  simp

theorem expire_row_mono (c : ℤ) (r : Row) :
    (expire_row c r).is_active = true → r.is_active = true := by
  intro h
  cases hb : is_expired c r
  · rw [expire_row_of_not_expired c r hb] at h; exact h
  · rw [expire_row_of_expired c r hb] at h; simp at h

theorem apply_live_op_mono (r : Row) (op : LiveOp) :
    (apply_live_op r op).is_active = true → r.is_active = true := by
  cases op with
  | update l now =>
    intro h
    rw [← (apply_update_frame r l now).1]
    exact h
  | expire now days => exact expire_row_mono _ r

theorem foldl_live_mono (ops : List LiveOp) (r : Row)
    (h : (ops.foldl apply_live_op r).is_active = true) : r.is_active = true := by
  induction ops generalizing r with
  | nil => exact h
  | cons op ops ih => exact apply_live_op_mono r op (ih _ h)

theorem is_expired_expire_row (c : ℤ) (r : Row) : is_expired c (expire_row c r) = false := by
  cases hb : is_expired c r
  · rw [expire_row_of_not_expired c r hb]; exact hb
  · rw [expire_row_of_expired c r hb]; simp [is_expired]

theorem expire_row_idem (c : ℤ) (r : Row) : expire_row c (expire_row c r) = expire_row c r := by
  rw [expire_row_of_not_expired c (expire_row c r) (is_expired_expire_row c r)]

theorem expire_map_idem (c : ℤ) (l : List Row) :
    (l.map (expire_row c)).map (expire_row c) = l.map (expire_row c) := by
  induction l with
  | nil => rfl
  | cons r l ih => simp [expire_row_idem, ih]

theorem expire_filter_after (c : ℤ) (l : List Row) :
    (l.map (expire_row c)).filter (is_expired c) = [] := by
  induction l with
  | nil => rfl
  | cons r l ih => simp [List.filter_cons, is_expired_expire_row, ih]

theorem mark_expired_idem (rows : List Row) (now days : ℤ) :
    mark_expired_listings (mark_expired_listings rows now days).1 now days =
      ((mark_expired_listings rows now days).1, 0) := by
  show (List.map (expire_row (now - days * 86400)) ((List.map (expire_row (now - days * 86400)) rows, (List.filter (is_expired (now - days * 86400)) rows).length)).1, (List.filter (is_expired (now - days * 86400)) ((List.map (expire_row (now - days * 86400)) rows, (List.filter (is_expired (now - days * 86400)) rows).length)).1).length) = _
  rw [show ((List.map (expire_row (now - days * 86400)) rows, (List.filter (is_expired (now - days * 86400)) rows).length)).1 = List.map (expire_row (now - days * 86400)) rows from rfl, expire_map_idem, expire_filter_after]
  rfl


theorem is_expired_iff (c : ℤ) (r : Row) :
    is_expired c r = true ↔ (r.is_active = true ∧ ∃ t, r.scraped_at = some t ∧ t < c) := by
  unfold is_expired
  cases h : r.scraped_at <;> simp [h]

theorem needs_update_iff (l : Scraped) (e : Row) (now : ℤ) :
    needs_update l e now = true ↔
      (l.price_numeric ≠ e.price_numeric ∨ l.title ≠ e.title ∨
        ∃ t, e.last_updated = some t ∧ now - t > 86400) := by
  unfold needs_update
  cases h : e.last_updated <;> simp [h, bne_iff_ne, or_assoc]

theorem classify_known (l : Scraped) (ex : List Row) (now : ℤ) (eid : String) (r : Row)
    (h1 : l.external_id = some eid) (h2 : eid ≠ "")
    (h3 : ex.find? (fun r' => r'.external_id == some eid) = some r) :
    classify l ex now = if needs_update l r now then .changed r else .unchanged r := by
  unfold classify
  rw [h1]
  simp only [h3, if_neg h2]

theorem partition_single (l : Scraped) (ex : List Row) (now : ℤ) :
    partition_source [l] ex now =
      (match classify l ex now with
       | .isNew => ([l], [])
       | .changed r => ([], [(r, l)])
       | _ => ([], [])) := by
  unfold partition_source
  cases h : classify l ex now <;> simp [h, partition_source]

-- C6: changed iff price/title differ or staleness exceeds 24h; unchanged means no write
theorem sync_changed_iff (l : Scraped) (ex : List Row) (now : ℤ) (eid : String) (r : Row)
    (h1 : l.external_id = some eid) (h2 : eid ≠ "")
    (h3 : ex.find? (fun r' => r'.external_id == some eid) = some r) :
    (classify l ex now = .changed r ↔
      (l.price_numeric ≠ r.price_numeric ∨ l.title ≠ r.title ∨
        ∃ t, r.last_updated = some t ∧ now - t > 86400)) ∧
    (classify l ex now = .unchanged r → partition_source [l] ex now = ([], [])) := by
  have hc := classify_known l ex now eid r h1 h2 h3
  constructor
  · rw [hc]
    by_cases hn : needs_update l r now = true
    · rw [if_pos hn]
      exact ⟨fun _ => (needs_update_iff l r now).mp hn, fun _ => rfl⟩
    · rw [if_neg hn]
      constructor
      · intro h; exact absurd h (by simp)
      · intro h; exact absurd ((needs_update_iff l r now).mpr h) hn
  · intro hu
    rw [partition_single, hu]

-- C1 support
theorem process_update_entries (r : Row) (l : Scraped) (now : ℤ) :
    ((process_update r l now).2 = [⟨r.id, r.price_numeric, l.price_numeric, now⟩] ↔
      (truthyPrice r.price_numeric = true ∧ truthyPrice l.price_numeric = true ∧
        r.price_numeric ≠ l.price_numeric)) ∧
    ((process_update r l now).2 = [] ∨
      (process_update r l now).2 = [⟨r.id, r.price_numeric, l.price_numeric, now⟩]) := by
  unfold process_update
  by_cases h : (truthyPrice r.price_numeric && truthyPrice l.price_numeric
      && (r.price_numeric != l.price_numeric)) = true
  · rw [if_pos h]
    simp only [Bool.and_eq_true, bne_iff_ne] at h
    exact ⟨⟨fun _ => ⟨h.1.1, h.1.2, h.2⟩, fun _ => rfl⟩, Or.inr rfl⟩
  · rw [if_neg h]
    constructor
    · constructor
      · intro hh; exact absurd hh (by simp)
      · intro hh
        exact absurd (by simp only [Bool.and_eq_true, bne_iff_ne]; exact ⟨⟨hh.1, hh.2.1⟩, hh.2.2⟩) h
    · exact Or.inl rfl

theorem sync_entries_single_changed (l : Scraped) (ex : List Row) (now : ℤ) (r : Row)
    (h : classify l ex now = .changed r) :
    sync_entries [l] ex now = (process_update r l now).2 := by
  unfold sync_entries
  rw [partition_single, h]
  show (update_listings [(r, l)] now).2 = _
  unfold update_listings
  cases hp : process_update r l now
  simp [update_listings]

theorem sync_entries_single_unchanged (l : Scraped) (ex : List Row) (now : ℤ) (r : Row)
    (h : classify l ex now = .unchanged r) :
    sync_entries [l] ex now = [] := by
  unfold sync_entries
  rw [partition_single, h]
  rfl

def exRow2 : Row := { exRow with price_numeric := some 90000 }

def exRow3 : Row := { exRow with price_numeric := some 100000 }

-- C6 claim theorem
/-- Claim C6: the Sync Orchestrator classifies a scraped listing with a known
`external_id` as changed iff its price differs from the stored price, or its
title differs from the stored title, or more than 86400 seconds have elapsed
since the stored `last_updated`; an unchanged listing is placed in neither the
insert nor the update batch, so no write occurs for it. -/
theorem changed_partition_spec (l : Scraped) (ex : List Row) (now : ℤ) (eid : String) (r : Row)
    (h1 : l.external_id = some eid) (h2 : eid ≠ "")
    (h3 : ex.find? (fun r' => r'.external_id == some eid) = some r) :
    (classify l ex now = .changed r ↔
      (l.price_numeric ≠ r.price_numeric ∨ l.title ≠ r.title ∨
        ∃ t, r.last_updated = some t ∧ now - t > 86400)) ∧
    (classify l ex now = .unchanged r → partition_source [l] ex now = ([], [])) :=
  sync_changed_iff l ex now eid r h1 h2 h3

theorem changed_partition_spec_check :
    classify exL [exRow] 1000 = .changed exRow ∧
    classify { exL with price_numeric := some 100000 } [exRow3] 1000 = .unchanged exRow3 ∧
    partition_source [{ exL with price_numeric := some 100000 }] [exRow3] 1000 = ([], []) := by
  refine ⟨(changed_partition_spec exL [exRow] 1000 "olx_1" exRow rfl (by decide) rfl).1.mpr
      (Or.inl (by decide)), rfl,
    (changed_partition_spec { exL with price_numeric := some 100000 } [exRow3] 1000 "olx_1" exRow3
      rfl (by decide) rfl).2 rfl⟩

-- C7 claim theorem
/-- Claim C7: the expiry pass flips exactly the still-active rows whose
`scraped_at` predates `now - days*86400` (default `days = 7`), leaves
already-inactive rows untouched (the update filters on `is_active = true`),
and re-running the pass on its own output modifies no row and marks 0. -/
theorem expiry_exact_idempotent (rows : List Row) (now days : ℤ) (r : Row) :
    (r.is_active = true →
      ((expire_row (now - days * 86400) r).is_active = false ↔
        ∃ t, r.scraped_at = some t ∧ t < now - days * 86400)) ∧
    (r.is_active = false → expire_row (now - days * 86400) r = r) ∧
    (mark_expired_listings (mark_expired_listings rows now days).1 now days =
      ((mark_expired_listings rows now days).1, 0)) := by
  refine ⟨?_, ?_, mark_expired_idem rows now days⟩
  · intro ha
    cases hb : is_expired (now - days * 86400) r
    · rw [expire_row_of_not_expired _ _ hb]
      constructor
      · intro h; rw [ha] at h; exact absurd h (by simp)
      · intro hst
        have ht : is_expired (now - days * 86400) r = true :=
          (is_expired_iff _ r).mpr ⟨ha, hst⟩
        rw [ht] at hb; exact absurd hb (by simp)
    · rw [expire_row_of_expired _ _ hb]
      exact ⟨fun _ => ((is_expired_iff _ r).mp hb).2, fun _ => rfl⟩
  · intro ha
    apply expire_row_of_not_expired
    unfold is_expired
    rw [ha]
    rfl

theorem expiry_exact_idempotent_check :
    ((expire_row (1000000 - 7 * 86400) exRow).is_active = false ↔
      ∃ t, exRow.scraped_at = some t ∧ t < 1000000 - 7 * 86400) ∧
    expire_row (1000000 - 7 * 86400) { exRow with is_active := false } =
      { exRow with is_active := false } :=
  ⟨(expiry_exact_idempotent [] 1000000 7 exRow).1 rfl,
   (expiry_exact_idempotent [] 1000000 7 { exRow with is_active := false }).2.1 rfl⟩

-- C8 claim theorem
/-- Claim C8: `is_active` is monotone true→false across the live pipeline:
the update payload carries no `is_active`, `external_id` or `scraped_at` key
(they are popped before the write), a per-row update therefore preserves those
three columns, and any sequence of live operations (updates and expiry passes)
never turns `is_active` back to true. -/
theorem is_active_monotone (l : Scraped) (now : ℤ) (r : Row) (ops : List LiveOp) :
    dictLookup (update_payload l now) "is_active" = none ∧
    dictLookup (update_payload l now) "external_id" = none ∧
    dictLookup (update_payload l now) "scraped_at" = none ∧
    (apply_update r (update_payload l now)).is_active = r.is_active ∧
    (apply_update r (update_payload l now)).external_id = r.external_id ∧
    (apply_update r (update_payload l now)).scraped_at = r.scraped_at ∧
    ((ops.foldl apply_live_op r).is_active = true → r.is_active = true) :=
  ⟨update_payload_no_is_active l now, update_payload_no_external_id l now,
   update_payload_no_scraped_at l now, (apply_update_frame r l now).1,
   (apply_update_frame r l now).2.1, (apply_update_frame r l now).2.2,
   foldl_live_mono ops r⟩

theorem is_active_monotone_check : exRow.is_active = true :=
  (is_active_monotone exL 0 exRow [.expire 0 7]).2.2.2.2.2.2 (by decide)

-- C1 claim theorem (amended) and counterexample
/-- Claim C1 (amended): on the update path a `price_history` row with
`old_price` = the stored price and `new_price` = the scraped price is appended
iff BOTH prices are truthy (non-null and non-zero) AND they differ — not
merely iff they differ; at most one row is appended per listing; re-syncing an
unchanged listing appends zero rows; and a price-only change between two
truthy prices appends exactly one row with matching old/new values. -/
theorem price_history_guarded (r : Row) (l : Scraped) (now : ℤ) (ex : List Row) (eid : String) :
    ((process_update r l now).2 = [⟨r.id, r.price_numeric, l.price_numeric, now⟩] ↔
      (truthyPrice r.price_numeric = true ∧ truthyPrice l.price_numeric = true ∧
        r.price_numeric ≠ l.price_numeric)) ∧
    ((process_update r l now).2 = [] ∨
      (process_update r l now).2 = [⟨r.id, r.price_numeric, l.price_numeric, now⟩]) ∧
    (classify l ex now = .unchanged r → sync_entries [l] ex now = []) ∧
    (l.external_id = some eid → eid ≠ "" →
      ex.find? (fun r' => r'.external_id == some eid) = some r →
      truthyPrice r.price_numeric = true → truthyPrice l.price_numeric = true →
      l.price_numeric ≠ r.price_numeric →
      sync_entries [l] ex now = [⟨r.id, r.price_numeric, l.price_numeric, now⟩]) := by
  refine ⟨(process_update_entries r l now).1, (process_update_entries r l now).2,
    sync_entries_single_unchanged l ex now r, ?_⟩
  intro h1 h2 h3 htr htl hne
  have hch : classify l ex now = .changed r := by
    rw [classify_known l ex now eid r h1 h2 h3,
      if_pos ((needs_update_iff l r now).mpr (Or.inl hne))]
  rw [sync_entries_single_changed l ex now r hch]
  exact (process_update_entries r l now).1.mpr ⟨htr, htl, fun he => hne he.symm⟩

theorem price_history_guarded_check :
    sync_entries [exL] [exRow2] 1000 = [⟨1, some 90000, some 100000, 1000⟩] ∧
    sync_entries [{ exL with price_numeric := some 100000 }] [exRow3] 1000 = [] :=
  ⟨(price_history_guarded exRow2 exL 1000 [exRow2] "olx_1").2.2.2 rfl (by decide) rfl
      (by decide) (by decide) (by decide),
   (price_history_guarded exRow3 { exL with price_numeric := some 100000 } 1000 [exRow3]
      "olx_1").2.2.1 rfl⟩

/-- Claim C1 counterexample: a stored row with `price_numeric = NULL` re-scraped
with price 100000 is classified changed and updated, the new price differs from
the stored one, yet `_update_listings` appends no `price_history` row because
`old_price` is falsy in `old_price and new_price and old_price != new_price`. -/
theorem price_history_not_iff_cex :
    classify exL [exRow] 1000 = .changed exRow ∧
    exL.price_numeric ≠ exRow.price_numeric ∧
    (process_update exRow exL 1000).2 = [] ∧
    sync_entries [exL] [exRow] 1000 = [] :=
  ⟨rfl, by decide, rfl, rfl⟩

end SyncService

namespace Municipality

/-- Python `str.lower` restricted to the characters appearing in the tables:
ASCII letters plus the uppercase letters of the Bosnian alphabet. -/
def pyCharLower (c : Char) : Char :=
  if c = 'Š' then 'š'
  else if c = 'Đ' then 'đ'
  else if c = 'Č' then 'č'
  else if c = 'Ć' then 'ć'
  else if c = 'Ž' then 'ž'
  else c.toLower

def pyLower (s : String) : String := String.mk (s.toList.map pyCharLower)

def pyWsChars : List Char := [' ', '\t', '\n', '\r', Char.ofNat 11, Char.ofNat 12]

/-- Python `str.strip()` (over the ASCII whitespace actually occurring here). -/
def pyStrip (s : String) : String :=
  String.mk (((s.toList.dropWhile pyWsChars.contains).reverse.dropWhile pyWsChars.contains).reverse)

/-- Python's substring test `needle in hay`. -/
def isSub (needle : List Char) : List Char → Bool
  | [] => needle.isEmpty
  | c :: t => needle.isPrefixOf (c :: t) || isSub needle t

/-- `NEIGHBORHOOD_MAPPING` in insertion (= iteration) order. -/
def NEIGHBORHOOD_MAPPING : List (String × String) :=
  [("Centar", "Sarajevo - Centar"), ("Marijin Dvor", "Sarajevo - Centar"),
   ("Skenderija", "Sarajevo - Centar"), ("Mejtas", "Sarajevo - Centar"),
   ("Mejtaš", "Sarajevo - Centar"), ("mejtaš", "Sarajevo - Centar"),
   ("Džidžikovac", "Sarajevo - Centar"), ("Bjelave", "Sarajevo - Centar"),
   ("Čobanija", "Sarajevo - Centar"), ("Šip", "Sarajevo - Centar"),
   ("Koševo", "Sarajevo - Centar"), ("Koševsko brdo", "Sarajevo - Centar"),
   ("Ferhadija", "Sarajevo - Centar"), ("Breka", "Sarajevo - Centar"),
   ("Stari Grad", "Sarajevo - Stari Grad"), ("Baščaršija", "Sarajevo - Stari Grad"),
   ("Alifakovac", "Sarajevo - Stari Grad"), ("Jekovac", "Sarajevo - Stari Grad"),
   ("Vratnik", "Sarajevo - Stari Grad"), ("Bistrik", "Sarajevo - Stari Grad"),
   ("Novo Sarajevo", "Sarajevo - Novo Sarajevo"), ("Grbavica", "Sarajevo - Novo Sarajevo"),
   ("Dolac Malta", "Sarajevo - Novo Sarajevo"), ("Ciglane", "Sarajevo - Novo Sarajevo"),
   ("Hrasno", "Sarajevo - Novo Sarajevo"), ("Kovačići", "Sarajevo - Novo Sarajevo"),
   ("Pofalići", "Sarajevo - Novo Sarajevo"),
   ("Novi Grad", "Sarajevo - Novi Grad"), ("Švrakino Selo", "Sarajevo - Novi Grad"),
   ("Alipašino Polje", "Sarajevo - Novi Grad"), ("Alipašino", "Sarajevo - Novi Grad"),
   ("Čengić Vila", "Sarajevo - Novi Grad"), ("Zabrđe", "Sarajevo - Novi Grad"),
   ("Dobrinja", "Sarajevo - Novi Grad"), ("Mojmilo", "Sarajevo - Novi Grad"),
   ("Ilidža", "Ilidža"), ("Butmir", "Ilidža"), ("Hrasnica", "Ilidža"),
   ("Sokolović Kolonija", "Ilidža"), ("Otes", "Ilidža"), ("Stup", "Ilidža"),
   ("Hadžići", "Hadžići"), ("Vogošća", "Vogošća"), ("Ilijaš", "Ilijaš"),
   ("Trnovo", "Trnovo")]

/-- `_standardize_municipality` (nekretnine scraper, lines 246–263): the first
neighborhood whose lowercase name occurs in the lowered
`"{municipality} {title} {description}"` wins, otherwise the raw
municipality is returned unchanged. -/
def standardize_municipality (municipality : Option String) (title description : String) :
    Option String :=
  match municipality with
  | none => none
  | some m =>
    if m = "" then none
    else
      let search_text := pyLower (m ++ " " ++ title ++ " " ++ description)
      match NEIGHBORHOOD_MAPPING.find?
          (fun p => isSub (pyLower p.1).toList search_text.toList) with
      | some p => some p.2
      | none => some m

-- Micro-regex engine covering exactly the constructs used by `PATTERN_MAP`:
-- literal characters, character classes, `\s`, and the `?`, `*`, `+` quantifiers
-- on a single class, with `re.search` semantics (match anywhere).

inductive Quant | one | opt | star | plus
  deriving DecidableEq, Repr

structure Atom where
  chars : List Char
  q : Quant
  deriving DecidableEq, Repr

/-- Backtracking matcher for an atom sequence at the start of `s`. The fuel
`(s.length + 1) * (atoms.length + 1)` strictly exceeds the length of any
descent in the lexicographic measure (|s|, |atoms|) — every recursive call
either consumes a character or discharges an atom, and the atom list never
grows — so the fuel never runs out and the `fuel = 0` branch is dead code
kept only to make the recursion structural. -/
def matchAtomsF : ℕ → List Atom → List Char → Bool
  | 0, _, _ => false
  | _ + 1, [], _ => true
  | fuel + 1, a :: rest, s =>
    match a.q with
    | .one =>
      match s with
      | [] => false
      | c :: cs => a.chars.contains c && matchAtomsF fuel rest cs
    | .opt =>
      matchAtomsF fuel rest s ||
        (match s with
         | [] => false
         | c :: cs => a.chars.contains c && matchAtomsF fuel rest cs)
    | .star =>
      matchAtomsF fuel rest s ||
        (match s with
         | [] => false
         | c :: cs => a.chars.contains c && matchAtomsF fuel (⟨a.chars, .star⟩ :: rest) cs)
    | .plus =>
      match s with
      | [] => false
      | c :: cs => a.chars.contains c && matchAtomsF fuel (⟨a.chars, .star⟩ :: rest) cs

def matchAtoms (atoms : List Atom) (s : List Char) : Bool :=
  matchAtomsF ((s.length + 1) * (atoms.length + 1)) atoms s

def searchFrom (alts : List (List Atom)) : List Char → Bool
  | [] => alts.any (fun a => matchAtoms a [])
  | c :: t => alts.any (fun a => matchAtoms a (c :: t)) || searchFrom alts t

def lit (s : String) : List Atom := s.toList.map (fun c => ⟨[c], .one⟩)
def cls (cs : List Char) : Atom := ⟨cs, .one⟩
def ws0 : Atom := ⟨pyWsChars, .star⟩
def ws1 : Atom := ⟨pyWsChars, .plus⟩
def wsOpt : Atom := ⟨pyWsChars, .opt⟩
def chOpt (c : Char) : Atom := ⟨[c], .opt⟩

/-- `PATTERN_MAP` from `backend/scripts/municipality_mapper.py` (lines 33–52);
each `re.IGNORECASE` regex is compiled against the lowered text. -/
def PATTERN_MAP : List (List (List Atom) × String) :=
  [([lit "centar", lit "ohr", lit "trg" ++ [ws1] ++ lit "solidarnosti",
     lit "kod" ++ [ws1] ++ lit "ohr"], "Sarajevo - Centar"),
   ([lit "novo" ++ [ws0] ++ lit "sarajevo", lit "grbavica",
     lit "h" ++ [chOpt '.'] ++ [wsOpt] ++ lit "naselje", lit "hrasno",
     lit "pofali" ++ [cls ['c', 'ć']] ++ lit "i", lit "čengić", lit "cengic"],
    "Sarajevo - Novo Sarajevo"),
   ([lit "novi" ++ [ws0] ++ lit "grad", lit "alipaš", lit "alipas", lit "otoka",
     lit "dobrinja", lit "bu" ++ [cls ['c', 'ć']] ++ lit "a", lit "buće"],
    "Sarajevo - Novi Grad"),
   ([lit "stari" ++ [ws0] ++ lit "grad", lit "ba" ++ [chOpt 'š'] ++ lit "čaršija",
     lit "bascarsija", [chOpt 'š'] ++ lit "trosmajerova"], "Sarajevo - Stari Grad"),
   ([lit "ilidž", lit "ilidz", lit "butmir", lit "hrasnica",
     lit "sokolovi" ++ [cls ['c', 'ć']], lit "osjek", lit "oštek",
     lit "silve" ++ [ws1] ++ lit "rizvanbegovic"], "Ilidža"),
   ([lit "vogoš" ++ [cls ['c', 'ć']] ++ lit "a", lit "vogo"], "Vogošća"),
   ([lit "ilijaš", lit "ilijas"], "Ilijaš"),
   ([lit "hadži" ++ [cls ['c', 'ć']] ++ lit "i", lit "hadzici"], "Hadžići"),
   ([lit "trnovo"], "Trnovo")]

def CANONICAL : List String :=
  ["Sarajevo - Centar", "Sarajevo - Novi Grad", "Sarajevo - Novo Sarajevo",
   "Sarajevo - Stari Grad", "Ilidža", "Vogošća", "Ilijaš", "Hadžići", "Trnovo"]

/-- `map_municipality`: canonical input (case-insensitively) is returned with
registered casing; otherwise the first matching pattern's target is returned;
otherwise `None`. -/
def map_municipality (raw : Option String) : Option String :=
  match raw with
  | none => none
  | some r =>
    if r = "" then none
    else
      let text := pyStrip r
      let lower := pyLower text
      match CANONICAL.find? (fun c => pyLower c == lower) with
      | some c => some c
      | none =>
        match PATTERN_MAP.find? (fun pr => searchFrom pr.1 (pyLower text).toList) with
        | some pr => some pr.2
        | none => none

structure CleanRow where
  id : ℕ
  municipality : Option String
  is_active : Bool
  deriving DecidableEq, Repr

/-- One iteration of `clean_table`'s row loop with `apply_changes`:
an unmappable row is set inactive and then deleted (so it leaves the table),
a mappable row whose municipality differs is rewritten to the canonical name. -/
def clean_row_result (apply_changes : Bool) (row : CleanRow) : Option CleanRow :=
  match map_municipality row.municipality with
  | none => if apply_changes then none else some row
  | some m =>
    if apply_changes && (some m != row.municipality)
    then some { row with municipality := some m }
    else some row

/-- `clean_table`: final table contents plus the `(updated, dropped, total)`
counters it returns. -/
def clean_table (rows : List CleanRow) (apply_changes : Bool) :
    List CleanRow × ℕ × ℕ × ℕ :=
  (rows.filterMap (clean_row_result apply_changes),
   (rows.filter (fun row =>
     (map_municipality row.municipality).isSome &&
       (map_municipality row.municipality != row.municipality))).length,
   (rows.filter (fun row => (map_municipality row.municipality).isNone)).length,
   rows.length)

/-- Claim C4 counterexample: under the live ingestion path
(`_standardize_municipality`) an input matched by no rule is returned
unchanged, not normalized to null: "Zzz" maps to "Zzz". (Only the batch
mapper `map_municipality` yields null.) -/
theorem unmatched_live_not_null_cex :
    standardize_municipality (some "Zzz") "" "" = some "Zzz" ∧
    standardize_municipality (some "Zzz") "" "" ≠ none ∧
    map_municipality (some "Zzz") = none := by
  refine ⟨by decide, by decide, by decide⟩

/-- Claim C4 (amended): "Ilidža, some street" normalizes to "Ilidža" and
"Grbavica" to "Sarajevo - Novo Sarajevo" under both normalizers; under the
live ingestion policy an input matched by no neighborhood rule is kept as the
raw string (null only for empty input), the first matching rule wins, and
under the batch cleanup policy a row whose municipality cannot be mapped is
deactivated-and-removed when changes are applied (and kept in dry-run). -/
theorem municipality_policies (m t d : String) (p : String × String) (row : CleanRow) :
    standardize_municipality (some "Ilidža, some street") "" "" = some "Ilidža" ∧
    standardize_municipality (some "Grbavica") "" "" = some "Sarajevo - Novo Sarajevo" ∧
    map_municipality (some "Ilidža, some street") = some "Ilidža" ∧
    map_municipality (some "Grbavica") = some "Sarajevo - Novo Sarajevo" ∧
    (m ≠ "" →
      NEIGHBORHOOD_MAPPING.find?
          (fun q => isSub (pyLower q.1).toList (pyLower (m ++ " " ++ t ++ " " ++ d)).toList) =
        some p →
      standardize_municipality (some m) t d = some p.2) ∧
    (m ≠ "" →
      NEIGHBORHOOD_MAPPING.find?
          (fun q => isSub (pyLower q.1).toList (pyLower (m ++ " " ++ t ++ " " ++ d)).toList) =
        none →
      standardize_municipality (some m) t d = some m) ∧
    (map_municipality row.municipality = none →
      clean_row_result true row = none ∧ clean_row_result false row = some row) := by
  refine ⟨by decide, by decide, by decide, by decide, ?_, ?_, ?_⟩
  · intro hm hf
    simp only [standardize_municipality, if_neg hm, hf]
  · intro hm hf
    simp only [standardize_municipality, if_neg hm, hf]
  · intro hn
    unfold clean_row_result
    rw [hn]
    exact ⟨rfl, rfl⟩

/-- Concrete instantiations of `municipality_policies`. -/
theorem municipality_policies_check :
    standardize_municipality (some "Blah") "" "" = some "Blah" ∧
    standardize_municipality (some "Stup") "" "" = some "Ilidža" ∧
    clean_row_result true ⟨1, some "Zzz", true⟩ = none ∧
    clean_row_result false ⟨1, some "Zzz", true⟩ = some ⟨1, some "Zzz", true⟩ :=
  ⟨(municipality_policies "Blah" "" "" ("", "") ⟨1, some "Zzz", true⟩).2.2.2.2.2.1
      (by decide) (by decide),
   (municipality_policies "Stup" "" "" ("Stup", "Ilidža") ⟨1, some "Zzz", true⟩).2.2.2.2.1
      (by decide) (by decide),
   ((municipality_policies "" "" "" ("", "") ⟨1, some "Zzz", true⟩).2.2.2.2.2.2
      (by decide)).1,
   ((municipality_policies "" "" "" ("", "") ⟨1, some "Zzz", true⟩).2.2.2.2.2.2
      (by decide)).2⟩

end Municipality

namespace Coordinates

/-- An inline `<script>`: whether the `setView([lat, lng]...)` and
`L.marker([lat, lng]...)` regexes match, and the literals they capture. -/
structure ScriptContent where
  setView : Option (ℚ × ℚ)
  markerCall : Option (ℚ × ℚ)
  deriving DecidableEq, Repr

/-- The pieces of a detail document `extract_coordinates_from_leaflet` reads:
the marker icon's `translate3d(x, y)` match (none when there is no marker or
its style does not match), each `leaflet-tile`'s `/{zoom}/{x}/{y}.png` match,
and the inline scripts (`none` for a script without string content). -/
structure LeafletDoc where
  markerTransform : Option (ℤ × ℤ)
  tiles : List (Option (ℕ × ℕ × ℕ))
  scripts : List (Option ScriptContent)
  deriving DecidableEq, Repr

/-- Python `round(x, 6)`; ties (which do not occur at the inputs reasoned
about here) are modelled as round-half-up rather than float
round-half-even. -/
def round6 (q : ℚ) : ℚ := (round (q * 1000000) : ℚ) / 1000000

/-- `lon_deg = tile_x / 2**zoom * 360.0 - 180.0` (exact in ℚ). -/
def tile2lon (zoom x : ℕ) : ℚ := (x : ℚ) / ((2 : ℚ) ^ zoom) * 360 - 180

/-- Method 2 of `extract_coordinates_from_leaflet`: scan scripts in order,
per script try `setView` then `L.marker`, return the first hit. -/
def scriptScan : List (Option ScriptContent) → Option ℚ × Option ℚ
  | [] => (none, none)
  | none :: rest => scriptScan rest
  | some sc :: rest =>
    match sc.setView with
    | some (lat, lng) => (some lat, some lng)
    | none =>
      match sc.markerCall with
      | some (lat, lng) => (some lat, some lng)
      | none => scriptScan rest

/-- `extract_coordinates_from_leaflet`. `tileLatDeg zoom x y` stands for the
float computation `degrees(atan(sinh(pi * (1 - 2*y/2**zoom))))`, which is
outside the rational fragment and passed as an oracle; the function's control
flow — including the absence of any bounding-box validation — is exact. -/
def extract_coordinates_from_leaflet (tileLatDeg : ℕ → ℕ → ℕ → ℚ) (doc : LeafletDoc) :
    Option ℚ × Option ℚ :=
  match doc.markerTransform with
  | some _ =>
    match doc.tiles.findSome? id with
    | some (zoom, tx, ty) =>
      (some (round6 (tileLatDeg zoom tx ty)), some (round6 (tile2lon zoom tx)))
    | none => scriptScan doc.scripts
  | none => scriptScan doc.scripts

/-- `geocode_address`: no client or a failed/empty geocode yields
`(None, None)`; a first result outside `[42,46]×[15,20]` is discarded. -/
def geocode_address (gmapsPresent : Bool) (geocodeResult : Except String (List (ℚ × ℚ))) :
    Option ℚ × Option ℚ :=
  if !gmapsPresent then (none, none)
  else
    match geocodeResult with
    | .error _ => (none, none)
    | .ok [] => (none, none)
    | .ok ((lat, lng) :: _) =>
      if 42 ≤ lat ∧ lat ≤ 46 ∧ 15 ≤ lng ∧ lng ≤ 20 then (some lat, some lng)
      else (none, none)

/-- A document whose marker matched at `translate3d(371px, 200px)` and whose
first tile is `/16/36121/23865.png`. -/
def docTile : LeafletDoc := ⟨some (371, 200), [some (16, 36121, 23865)], []⟩

/-- Claim C3 counterexample: the map-widget (tile math) strategy performs no
bounding-box check — when the tile math yields `lat = 50.0` the resolver
returns `(50.0, 18.418579)` for the tile `/16/36121/23865.png`, not
`(null, null)`. -/
theorem leaflet_no_box_cex :
    extract_coordinates_from_leaflet (fun _ _ _ => 50) docTile =
      (some 50, some (18418579 / 1000000 : ℚ)) ∧
    ¬ ((50 : ℚ) ≤ 46) ∧
    extract_coordinates_from_leaflet (fun _ _ _ => 50) docTile ≠ (none, none) := by
  have h1 : extract_coordinates_from_leaflet (fun _ _ _ => 50) docTile =
      (some (round6 50), some (round6 (tile2lon 16 36121))) := rfl
  have h2 : round6 50 = 50 := by norm_num [round6, round_eq]
  have h3 : round6 (tile2lon 16 36121) = 18418579 / 1000000 := by
    norm_num [round6, tile2lon, round_eq]
  refine ⟨by rw [h1, h2, h3], by norm_num, by rw [h1, h2, h3]; simp⟩

/-- Claim C3 (amended): only the geocoding fallback validates the national
bounding box — its result is `(null, null)` or a point inside
`[42,46]×[15,20]` — while the map-widget and embedded-script strategies
return whatever coordinate they computed or parsed, with no box check, for
every input value. -/
theorem only_geocode_validates_box (g : Bool) (res : Except String (List (ℚ × ℚ)))
    (lat lng : ℚ) (tl : ℕ → ℕ → ℕ → ℚ) (z x y : ℕ) (tr : ℤ × ℤ)
    (scripts : List (Option ScriptContent)) :
    (geocode_address g res = (none, none) ∨
      ∃ la ln, geocode_address g res = (some la, some ln) ∧
        42 ≤ la ∧ la ≤ 46 ∧ 15 ≤ ln ∧ ln ≤ 20) ∧
    extract_coordinates_from_leaflet tl ⟨none, [], some ⟨some (lat, lng), none⟩ :: scripts⟩ =
      (some lat, some lng) ∧
    extract_coordinates_from_leaflet tl ⟨none, [], some ⟨none, some (lat, lng)⟩ :: scripts⟩ =
      (some lat, some lng) ∧
    extract_coordinates_from_leaflet tl ⟨some tr, [some (z, x, y)], scripts⟩ =
      (some (round6 (tl z x y)), some (round6 (tile2lon z x))) := by
  refine ⟨?_, rfl, rfl, rfl⟩
  unfold geocode_address
  cases g with
  | false => exact Or.inl rfl
  | true =>
    cases res with
    | error e => exact Or.inl rfl
    | ok lst =>
      cases lst with
      | nil => exact Or.inl rfl
      | cons hd tlst =>
        obtain ⟨la, ln⟩ := hd
        by_cases hb : 42 ≤ la ∧ la ≤ 46 ∧ 15 ≤ ln ∧ ln ≤ 20
        · right
          refine ⟨la, ln, ?_, hb.1, hb.2.1, hb.2.2.1, hb.2.2.2⟩
          simp [hb]
        · left
          simp [hb]

end Coordinates

namespace NekScrape

/-- Run-scoped scraper state: the in-memory URL index (`self.existing_urls`,
a set — only membership matters), the detail URLs dispatched to
`parse_detail_page`, and the URLs of rows inserted into the backing store. -/
structure ScrapeState where
  existing : List String
  dispatched : List String
  stored : List String
  deriving DecidableEq, Repr

/-- `_load_existing_urls`: on success the set of truthy `url` values of the
fetched rows; any exception is swallowed and yields the empty set. -/
def load_existing_urls : Except String (List (Option String)) → List String
  | .ok rows => rows.filterMap (fun o =>
      match o with
      | some u => if u = "" then none else some u
      | none => none)
  | .error _ => []

/-- `_is_duplicate`: membership in the in-memory index. -/
def is_duplicate (existing : List String) (url : String) : Bool := existing.contains url

/-- `_save_listings_to_database` restricted to the URL bookkeeping: filter the
page batch against the index once more, insert what survives, then add the
inserted truthy URLs to the index (after the whole batch insert). -/
def save_listings_to_database (st : ScrapeState) (page_listings : List String) :
    ScrapeState × ℕ :=
  if page_listings = [] then (st, 0)
  else
    let new_listings := page_listings.filter (fun u => !is_duplicate st.existing u)
    if new_listings = [] then (st, 0)
    else
      ({ st with
          existing := st.existing ++ new_listings.filter (fun u => u ≠ ""),
          stored := st.stored ++ new_listings },
        new_listings.length)

/-- One iteration of `scrape_listings`' page loop: filter the page's URLs
against the index, dispatch the survivors to detail extraction (`parse_ok`
tells which parses succeed), then save the page batch. -/
def process_page (parse_ok : String → Bool) (st : ScrapeState) (urls : List String) :
    ScrapeState :=
  let new_urls := urls.filter (fun u => !is_duplicate st.existing u)
  if new_urls = [] then st
  else
    let st1 := { st with dispatched := st.dispatched ++ new_urls }
    let page_listings := new_urls.filter parse_ok
    (save_listings_to_database st1 page_listings).1

/-- `scrape_listings`: pages processed in order; an empty page stops the run. -/
def run_pages (parse_ok : String → Bool) : ScrapeState → List (List String) → ScrapeState
  | st, [] => st
  | st, p :: ps => if p = [] then st else run_pages parse_ok (process_page parse_ok st p) ps

theorem count_append_not_mem (a l : List String) (u : String) (h : u ∉ l) :
    (a ++ l).count u = a.count u := by
  rw [List.count_append, List.count_eq_zero.mpr h, Nat.add_zero]

theorem process_page_indexed (p : String → Bool) (st : ScrapeState) (urls : List String)
    (u : String) (hu : u ∈ st.existing) :
    u ∈ (process_page p st urls).existing ∧
    (process_page p st urls).dispatched.count u = st.dispatched.count u ∧
    (process_page p st urls).stored.count u = st.stored.count u := by
  have hnu : u ∉ urls.filter (fun v => !is_duplicate st.existing v) := by
    intro hmem
    have := (List.mem_filter.mp hmem).2
    simp [is_duplicate, hu] at this
  unfold process_page save_listings_to_database
  by_cases h1 : urls.filter (fun v => !is_duplicate st.existing v) = []
  · simp only [h1, if_pos rfl]
    exact ⟨hu, rfl, rfl⟩
  · simp only [if_neg h1]
    by_cases h2 : (urls.filter (fun v => !is_duplicate st.existing v)).filter p = []
    · simp only [h2, if_pos rfl]
      exact ⟨hu, count_append_not_mem _ _ _ hnu, rfl⟩
    · simp only [if_neg h2]
      have hnp : u ∉ (urls.filter (fun v => !is_duplicate st.existing v)).filter p :=
        fun hmem => hnu (List.mem_filter.mp hmem).1
      by_cases h3 : ((urls.filter (fun v => !is_duplicate st.existing v)).filter p).filter
          (fun v => !is_duplicate st.existing v) = []
      · simp only [h3, if_pos rfl]
        exact ⟨hu, count_append_not_mem _ _ _ hnu, rfl⟩
      · simp only [if_neg h3]
        have hnl : u ∉ ((urls.filter (fun v => !is_duplicate st.existing v)).filter p).filter
            (fun v => !is_duplicate st.existing v) :=
          fun hmem => hnp (List.mem_filter.mp hmem).1
        exact ⟨List.mem_append_left _ hu, count_append_not_mem _ _ _ hnu,
          count_append_not_mem _ _ _ hnl⟩

theorem run_pages_indexed (p : String → Bool) (pages : List (List String))
    (st : ScrapeState) (u : String) (hu : u ∈ st.existing) :
    (run_pages p st pages).dispatched.count u = st.dispatched.count u ∧
    (run_pages p st pages).stored.count u = st.stored.count u := by
  induction pages generalizing st with
  | nil => exact ⟨rfl, rfl⟩
  | cons pg pgs ih =>
    unfold run_pages
    by_cases hpg : pg = []
    · simp only [hpg, if_pos rfl]
      exact ⟨rfl, rfl⟩
    · simp only [if_neg hpg]
      obtain ⟨hmem, hd, hs⟩ := process_page_indexed p st pg u hu
      obtain ⟨ihd, ihs⟩ := ih (process_page p st pg) hmem
      exact ⟨ihd.trans hd, ihs.trans hs⟩

theorem cross_page_stored_once (u : String) (hu : u ≠ "") :
    (run_pages (fun _ => true) ⟨[], [], []⟩ [[u], [u]]).stored = [u] := by
  simp [run_pages, process_page, save_listings_to_database, is_duplicate, hu]

/-- Claim C5 counterexample: the in-memory index grows only after a page's
whole batch insert, so a URL occurring twice on one page is filtered,
extracted and inserted twice — two stored rows, not one. -/
theorem within_page_duplicate_cex :
    (run_pages (fun _ => true) ⟨[], [], []⟩ [["u", "u"]]).stored = ["u", "u"] ∧
    (run_pages (fun _ => true) ⟨[], [], []⟩ [["u", "u"]]).stored.count "u" = 2 := by
  constructor <;> decide

/-- Claim C5 (amended): a URL already in the `ExistingListingIndex` is never
re-dispatched to extraction nor re-inserted during a run; a URL appearing on
two different pages is stored only once, because the index is grown after
each page's successful batch insert; but a URL occurring twice within one
page's batch is inserted once per occurrence. -/
theorem duplicate_filter_policy (p : String → Bool) (st : ScrapeState)
    (pages : List (List String)) (u : String) :
    (u ∈ st.existing →
      (run_pages p st pages).dispatched.count u = st.dispatched.count u ∧
      (run_pages p st pages).stored.count u = st.stored.count u) ∧
    (u ≠ "" → (run_pages (fun _ => true) ⟨[], [], []⟩ [[u], [u]]).stored = [u]) :=
  ⟨run_pages_indexed p pages st u, cross_page_stored_once u⟩

/-- Concrete instantiation of `duplicate_filter_policy`. -/
theorem duplicate_filter_policy_check :
    ((run_pages (fun _ => true) ⟨["k"], [], []⟩ [["k"], ["k", "m"]]).dispatched.count "k" = 0 ∧
      (run_pages (fun _ => true) ⟨["k"], [], []⟩ [["k"], ["k", "m"]]).stored.count "k" = 0) ∧
    (run_pages (fun _ => true) ⟨[], [], []⟩ [["w"], ["w"]]).stored = ["w"] :=
  ⟨(duplicate_filter_policy (fun _ => true) ⟨["k"], [], []⟩ [["k"], ["k", "m"]] "k").1
      (by decide),
   (duplicate_filter_policy (fun _ => true) ⟨[], [], []⟩ [] "w").2 (by decide)⟩

/-- Claim C10: when loading the per-source URL set fails, the exception is
swallowed, the index starts empty, and every discovered URL — stored in the
database or not — tests as non-duplicate and is dispatched to extraction and
(parses permitting) insertion. -/
theorem load_failure_all_dispatched (e : String) (urls : List String) (p : String → Bool) :
    load_existing_urls (Except.error e) = [] ∧
    (∀ u, is_duplicate (load_existing_urls (Except.error e)) u = false) ∧
    (process_page p ⟨load_existing_urls (Except.error e), [], []⟩ urls).dispatched = urls ∧
    (process_page (fun _ => true) ⟨load_existing_urls (Except.error e), [], []⟩ urls).stored
      = urls := by
  have hf : ∀ q : String → Bool, urls.filter (fun v => !is_duplicate [] v) = urls := by
    intro q
    apply List.filter_eq_self.mpr
    intro a _
    simp [is_duplicate]
  refine ⟨rfl, fun u => rfl, ?_, ?_⟩
  · show (process_page p ⟨[], [], []⟩ urls).dispatched = urls
    unfold process_page save_listings_to_database
    by_cases hurls : urls = []
    · subst hurls
      simp
    · rw [hf p]
      simp only [if_neg hurls]
      by_cases h2 : urls.filter p = []
      · simp [h2]
      · simp only [if_neg h2]
        by_cases h3 : (urls.filter p).filter (fun v => !is_duplicate [] v) = []
        · simp [h3, if_neg h2]
        · split <;> rfl
  · show (process_page (fun _ => true) ⟨[], [], []⟩ urls).stored = urls
    unfold process_page save_listings_to_database
    by_cases hurls : urls = []
    · subst hurls
      simp
    · rw [hf (fun _ => true)]
      simp only [if_neg hurls]
      rw [List.filter_true, hf (fun _ => true)]
      simp [if_neg hurls]

end NekScrape

namespace OlxExtract

/-- The selector outcomes `parse_detail_page` reads from the parsed document.
Each `Option String` is the `clean_text` of one selector's match (`none` when
the selector finds nothing; `some ""` when it matches but the text collapses
to empty). -/
structure OlxDoc where
  h1 : Option String
  mainTitle : Option String
  priceHeading : Option String
  cityPill : Option String
  descContainer : Option (List (Option String))
  descContainer2 : Option (Option String)
  vueDesc : Option (List (Option String))
  swiperImgs : List (Option String)
  articleImg : Option (Option String)
  deriving DecidableEq, Repr

/-- The field bag `parse_detail_page` assembles (the fields whose extraction
the claims are about). -/
structure OlxFields where
  title : Option String
  price_numeric : Option ℤ
  municipality : Option String
  description : Option String
  image_urls : List String
  thumbnail_url : Option String
  deriving DecidableEq, Repr

/-- Python `a or b` on `clean_text` results: `None` and `""` are falsy. -/
def pyOrStr (a b : Option String) : Option String :=
  match a with
  | some s => if s = "" then b else some s
  | none => b

/-- `extract_price`: strip non-digits, `int` of the remainder if any. -/
def extract_price (text : Option String) : Option ℤ :=
  match text with
  | none => none
  | some s =>
    if s = "" then none
    else
      let cleaned := s.toList.filter Char.isDigit
      if cleaned.isEmpty then none
      else some (cleaned.foldl (fun a d => a * 10 + ((d.toNat : ℤ) - 48)) 0)

/-- `" ".join(parts)`. -/
def joinSpace (parts : List String) : String := String.intercalate " " parts

/-- The description loops keep a cleaned paragraph iff `text and len(text) > 1`. -/
def collectParts (ps : List (Option String)) : List String :=
  ps.filterMap (fun o =>
    match o with
    | some t => if t ≠ "" ∧ t.length > 1 then some t else none
    | none => none)

/-- The three description methods, first truthy result wins. -/
def descOf (d : OlxDoc) : Option String :=
  let m1 := match d.descContainer with
    | some ps =>
      let parts := collectParts ps
      if parts.isEmpty then none else some (joinSpace parts)
    | none => none
  let m2 := match d.descContainer2 with
    | some t => t
    | none => none
  let m3 := match d.vueDesc with
    | some ps =>
      let parts := collectParts ps
      if parts.isEmpty then none else some (joinSpace parts)
    | none => none
  pyOrStr m1 (pyOrStr m2 m3)

/-- Swiper images with order-preserving dedup, falling back to
`img.article-img` when the swiper yields nothing. -/
def imagesOf (d : OlxDoc) : List String :=
  let image_urls := d.swiperImgs.foldl (fun acc o =>
    match o with
    | some u => if u ≠ "" ∧ ¬ acc.contains u then acc ++ [u] else acc
    | none => acc) []
  if image_urls.isEmpty then
    match d.articleImg with
    | some (some u) => if u ≠ "" then [u] else []
    | _ => []
  else image_urls

/-- The per-field fallback chains of `parse_detail_page`'s body. -/
def extract_fields (d : OlxDoc) : OlxFields where
  title := pyOrStr d.h1 d.mainTitle
  price_numeric := extract_price d.priceHeading
  municipality := d.cityPill
  description := descOf d
  image_urls := imagesOf d
  thumbnail_url := (imagesOf d).head?

/-- `parse_detail_page`'s control flow: a failed fetch returns `None`, and the
whole parsing body runs inside `try/except` — any exception (`Except.error`)
is absorbed into `None`, never propagated to the caller. -/
def parse_detail_page (fetched : Option String) (body : String → Except String OlxFields) :
    Option OlxFields :=
  match fetched with
  | none => none
  | some html =>
    match body html with
    | .ok bag => some bag
    | .error _ => none

/-- The per-listing loop of `scrape_listings`: each listing is processed in
its own `try/except`; an exception or an empty parse skips just that listing
and the loop continues with the rest. -/
def scrape_loop (perListing : String → Except String (Option OlxFields)) :
    List String → List OlxFields
  | [] => []
  | l :: ls =>
    match perListing l with
    | .ok (some bag) => bag :: scrape_loop perListing ls
    | _ => scrape_loop perListing ls

/-- Claim C9: the extractor never raises to its caller — a failed fetch or any
exception in the parsing body yields `None`; one listing's failure never
removes the other listings' results from a page's processing; and every field
whose candidate lookup rules all fail is null in the result. -/
theorem extractor_total_and_isolated
    (body : String → Except String OlxFields) (html e : String) (bag : OlxFields)
    (per : String → Except String (Option OlxFields)) (l : String) (ls : List String)
    (d : OlxDoc) :
    parse_detail_page none body = none ∧
    (body html = .error e → parse_detail_page (some html) body = none) ∧
    (body html = .ok bag → parse_detail_page (some html) body = some bag) ∧
    (per l = .error e → scrape_loop per (l :: ls) = scrape_loop per ls) ∧
    (per l = .ok none → scrape_loop per (l :: ls) = scrape_loop per ls) ∧
    (per l = .ok (some bag) → scrape_loop per (l :: ls) = bag :: scrape_loop per ls) ∧
    (d.h1 = none → d.mainTitle = none → (extract_fields d).title = none) ∧
    (d.priceHeading = none → (extract_fields d).price_numeric = none) ∧
    (d.cityPill = none → (extract_fields d).municipality = none) ∧
    (d.descContainer = none → d.descContainer2 = none → d.vueDesc = none →
      (extract_fields d).description = none) ∧
    (d.swiperImgs = [] → d.articleImg = none →
      (extract_fields d).image_urls = [] ∧ (extract_fields d).thumbnail_url = none) := by
  refine ⟨rfl, ?_, ?_, ?_, ?_, ?_, ?_, ?_, ?_, ?_, ?_⟩
  · intro h; simp [parse_detail_page, h]
  · intro h; simp [parse_detail_page, h]
  · intro h; simp [scrape_loop, h]
  · intro h; simp [scrape_loop, h]
  · intro h; simp [scrape_loop, h]
  · intro h1 h2; simp [extract_fields, pyOrStr, h1, h2]
  · intro h; simp [extract_fields, extract_price, h]
  · intro h; simp [extract_fields, h]
  · intro h1 h2 h3; simp [extract_fields, descOf, pyOrStr, h1, h2, h3]
  · intro h1 h2; simp [extract_fields, imagesOf, h1, h2]

def docEmpty : OlxDoc := ⟨none, none, none, none, none, none, none, [], none⟩

/-- Concrete instantiation of `extractor_total_and_isolated`. -/
theorem extractor_total_and_isolated_check :
    parse_detail_page (some "<html>") (fun _ => .error "boom") = none ∧
    scrape_loop (fun s => if s = "bad" then .error "boom" else .ok (some (extract_fields docEmpty)))
        ["bad", "good"] = [extract_fields docEmpty] ∧
    (extract_fields docEmpty).title = none ∧
    (extract_fields docEmpty).description = none := by
  have h := extractor_total_and_isolated
    (fun _ => Except.error "boom") "<html>" "boom" (extract_fields docEmpty)
    (fun s => if s = "bad" then Except.error "boom"
              else Except.ok (some (extract_fields docEmpty)))
    "bad" ["good"] docEmpty
  have h2 := extractor_total_and_isolated
    (fun _ => Except.error "boom") "<html>" "boom" (extract_fields docEmpty)
    (fun s => if s = "bad" then Except.error "boom"
              else Except.ok (some (extract_fields docEmpty)))
    "good" [] docEmpty
  refine ⟨h.2.1 rfl, ?_, h.2.2.2.2.2.2.1 rfl rfl, h.2.2.2.2.2.2.2.2.2.1 rfl rfl rfl⟩
  rw [h.2.2.2.1 (by simp), h2.2.2.2.2.2.1 (by simp)]
  rfl

end OlxExtract
